import Mathlib

/-!
Shallow embedding of src/auth_handlers/hubzilla.py (the Hubzilla credential
validator of the Cross cross-poster).

Modelling choices, all taken from the source:
* An HTTP exchange is a pure oracle network : Request -> Except PyErr Response.
  requests.request raises (e.g. ConnectionError) on transport failure; since
  the Python code has no try/except, every embedded function propagates
  errors through the Except monad exactly where the Python exception would
  propagate.
* A Response carries its status code and the outcome of calling .json() on
  it: some j when the body parses to the JSON value j, none when .json()
  would raise a decode error.
* Python dictionary subscripting nodeinfo["software"] raises KeyError when
  the key is missing and TypeError when the value is not a dict; this is the
  getKey function below.
* Strings are processed through their character lists. input() yields a
  single line without a newline, so on every string the program can receive,
  re.sub("/.*$", "", s) removes everything from the first "/" onward and
  re.sub("^https?://", "", s) removes one leading scheme, as embedded below.
-/

namespace Cross

/-- A JSON value, as produced by Response.json() in Python. -/
inductive Json where
  | null
  | bool (b : Bool)
  | num (n : Int)
  | str (s : String)
  | arr (elems : List Json)
  | obj (fields : List (String × Json))

/-- Python exceptions that the embedded code can raise. -/
inductive PyErr where
  | connectionError
  | jsonDecodeError
  | keyError (k : String)
  | typeError
deriving DecidableEq, Repr

/-- An outgoing HTTP request, as assembled by requests.request. -/
structure Request where
  method : String
  url : String
  headers : List (String × String)
  params : List (String × String)
  body : String

/-- An HTTP response: its status code, and what .json() would yield on it
(none when the body is unparseable and .json() raises). -/
structure Response where
  status : Nat
  jsonBody : Option Json

/-- The network as a pure oracle: what requests.request returns (or raises)
for each request sent during a run. -/
def Network : Type := Request → Except PyErr Response

/-- Python d[k]: field lookup on a JSON value. KeyError when the key is
missing, TypeError when subscripting a non-object by a string key. -/
def Json.getKey : Json → String → Except PyErr Json
  | .obj fields, k =>
    match fields.lookup k with
    | some v => .ok v
    | none => .error (.keyError k)
  | _, _ => .error .typeError

/-- UTF-8 encoding of one unicode scalar value, as Python str.encode("utf-8")
produces for this character. -/
def utf8EncodeCharNat (c : Char) : List Nat :=
  let n := c.toNat
  if n < 0x80 then [n]
  else if n < 0x800 then [0xC0 + n / 64, 0x80 + n % 64]
  else if n < 0x10000 then
    [0xE0 + n / 4096, 0x80 + (n / 64) % 64, 0x80 + n % 64]
  else
    [0xF0 + n / 262144, 0x80 + (n / 4096) % 64, 0x80 + (n / 64) % 64,
     0x80 + n % 64]

/-- The UTF-8 byte sequence of a string: Python s.encode("utf-8"). -/
def utf8Bytes (s : String) : List Nat :=
  s.toList.flatMap utf8EncodeCharNat

/-- The base64 alphabet, indexed 0..63. -/
def b64Alphabet : List Char :=
  "ABCDEFGHIJKLMNOPQRSTUVWXYZabcdefghijklmnopqrstuvwxyz0123456789+/".toList

/-- The alphabet character for a 6-bit group. -/
def b64Char (n : Nat) : Char := b64Alphabet.getD n 'A'

/-- Standard base64 of a byte list with "=" padding:
Python base64.b64encode. -/
def b64EncodeBytes : List Nat → List Char
  | [] => []
  | [a] => [b64Char (a / 4), b64Char (a % 4 * 16), '=', '=']
  | [a, b] => [b64Char (a / 4), b64Char (a % 4 * 16 + b / 16),
               b64Char (b % 16 * 4), '=']
  | a :: b :: c :: rest =>
      b64Char (a / 4) :: b64Char (a % 4 * 16 + b / 16) ::
      b64Char (b % 16 * 4 + c / 64) :: b64Char (c % 64) ::
      b64EncodeBytes rest

/-- str(base64.b64encode(s.encode("utf-8")), "utf-8") from the source. -/
def b64OfString (s : String) : String :=
  String.mk (b64EncodeBytes (utf8Bytes s))

/-! ### The three checks (hubzilla.py lines 40-92)

A Python statement r = requests.request(...) whose call raises becomes an
explicit match: the .error branch re-raises (propagates the exception out
of the enclosing function, as Python does without try/except). -/

/-- host_meta_url from hubzilla.py line 41. -/
def host_meta_url (inst : String) : String :=
  "https://" ++ inst ++ "/.well-known/host-meta"

/-- The GET request of basic_check (hubzilla.py line 43). -/
def host_meta_request (inst : String) : Request :=
  ⟨"GET", host_meta_url inst, [], [], ""⟩

/-- basic_check(instance): GET https://instance/.well-known/host-meta,
true iff the status code is 200 (hubzilla.py lines 40-48). -/
def basic_check (network : Network) (inst : String) : Except PyErr Bool :=
  match network (host_meta_request inst) with
  | .error e => .error e
  | .ok host_meta =>
      if host_meta.status = 200 then .ok true else .ok false

/-- nodeinfo_url from hubzilla.py line 53. -/
def nodeinfo_url (inst : String) : String :=
  "https://" ++ inst ++ "/nodeinfo/2.0"

/-- The GET request of check_nodeinfo (hubzilla.py line 54). -/
def nodeinfo_request (inst : String) : Request :=
  ⟨"GET", nodeinfo_url inst, [], [], ""⟩

/-- check_nodeinfo(instance): GET https://instance/nodeinfo/2.0; 404 is
inconclusive and yields true; otherwise parse the body (.json() raises on
an unparseable body) and test whether nodeinfo["software"]["name"] is
"hubzilla" or "redmatrix" (hubzilla.py lines 52-69). -/
def check_nodeinfo (network : Network) (inst : String) : Except PyErr Bool :=
  match network (nodeinfo_request inst) with
  | .error e => .error e
  | .ok nodeinfo_req =>
      if nodeinfo_req.status = 404 then .ok true
      else
        match nodeinfo_req.jsonBody with
        | none => .error .jsonDecodeError
        | some nodeinfo =>
            match nodeinfo.getKey "software" with
            | .error e => .error e
            | .ok software =>
                match software.getKey "name" with
                | .error e => .error e
                | .ok name =>
                    match name with
                    | .str s =>
                        if s = "hubzilla" ∨ s = "redmatrix" then .ok true
                        else .ok false
                    | _ => .ok false

/-- channel_name + ":" + password (hubzilla.py line 75). -/
def usercheck_creds (channel_name password : String) : String :=
  channel_name ++ ":" ++ password

/-- The authorization header value "Basic " + base64 of the credentials
(hubzilla.py lines 77-79). -/
def usercheck_header_value (channel_name password : String) : String :=
  "Basic " ++ b64OfString (usercheck_creds channel_name password)

/-- usercheck_url from hubzilla.py line 82. -/
def usercheck_url (inst : String) : String :=
  "https://" ++ inst ++ "/api/z/1.0/channel/export/basic"

/-- The POST request check_usercred sends (hubzilla.py lines 82-86). -/
def usercheck_request (inst channel_name password : String) : Request :=
  { method := "POST"
    url := usercheck_url inst
    headers := [("authorization", usercheck_header_value channel_name password)]
    params := [("sections", "channel"), ("posts", "0")]
    body := "" }

/-- check_usercred(instance, channel_name, password): authenticated POST to
the channel-export endpoint, true iff status 200 (hubzilla.py lines 73-92). -/
def check_usercred (network : Network)
    (inst channel_name password : String) : Except PyErr Bool :=
  match network (usercheck_request inst channel_name password) with
  | .error e => .error e
  | .ok usercheck =>
      if usercheck.status = 200 then .ok true else .ok false

/-! ### Input sanitization (hubzilla.py lines 112-113 and 134) -/

/-- True iff the second list starts with the first one. -/
def startsWithChars : List Char → List Char → Bool
  | [], _ => true
  | _ :: _, [] => false
  | p :: ps, c :: cs => p == c && startsWithChars ps cs

/-- re.sub("^https?://", "", s) on a character list: drop one leading
"http://" or "https://" scheme (hubzilla.py line 112). -/
def dropScheme (l : List Char) : List Char :=
  if startsWithChars "https://".toList l then l.drop 8
  else if startsWithChars "http://".toList l then l.drop 7
  else l

/-- re.sub("/.*$", "", s) on a newline-free character list: keep only what
comes before the first "/" (hubzilla.py line 113). -/
def untilSlash : List Char → List Char
  | [] => []
  | c :: cs => if c = '/' then [] else c :: untilSlash cs

/-- The instance-domain sanitization of main: strip a scheme, then strip
from the first "/" onward (hubzilla.py lines 112-113). -/
def sanitizeDomain (s : String) : String :=
  String.mk (untilSlash (dropScheme s.toList))

/-- re.sub("^@", "", s): strip one leading "@" from the channel name
(hubzilla.py line 134). -/
def sanitizeChannel (s : String) : String :=
  match s.toList with
  | '@' :: rest => String.mk rest
  | _ => s

/-! ### The orchestrator main() (hubzilla.py lines 96-142)

The run is a pure function of the three entered strings and the network
oracle. Its observable behaviour is recorded as a trace of events (prints,
prompts, check invocations, exit calls) together with the account_name that
was constructed, if any, and the Python exception that escaped, if any. -/

/-- One observable step of a run of main. -/
inductive Event where
  | print (s : String)
  | prompt (s : String)
  | invokeBasic
  | invokeNodeinfo
  | invokeUsercred
  | exitCall (code : Nat)
deriving DecidableEq, Repr

/-- The outcome of a run of main: its event trace, the composite
account_name if it was constructed, and the escaped exception if the run
crashed. -/
structure RunResult where
  events : List Event
  account : Option String
  crashed : Option PyErr
deriving Repr

/-- The intro banner printed at the top of main (hubzilla.py lines 105-107). -/
def introEvents : List Event :=
  [.print "Cross - a Mastodon/Hubzilla cross-poster",
   .print "       Holly Lotor Montalvo  2020       ",
   .print "----------------------------------------"]

/-- main(): prompt for the domain, run basic_check and check_nodeinfo,
prompt for channel name and password, run check_usercred, and on success
build account_name = "@" + channel + "@" + instance; any failed check
prints a diagnostic and exits with status 1 (hubzilla.py lines 96-142). -/
def main (instIn chanIn pwIn : String) (network : Network) : RunResult :=
  let ev1 := introEvents ++
    [.prompt "Please enter your instance's domain (i.e. example.com): "]
  let inst := sanitizeDomain instIn
  let ev2 := ev1 ++ [.invokeBasic]
  match basic_check network inst with
  | .error e => { events := ev2, account := none, crashed := some e }
  | .ok false =>
      { events := ev2 ++
          [.print "Instance returned error upon validation. Something's amiss with the instance. Bailing...",
           .exitCall 1],
        account := none, crashed := none }
  | .ok true =>
    let ev3 := ev2 ++ [.invokeNodeinfo]
    match check_nodeinfo network inst with
    | .error e => { events := ev3, account := none, crashed := some e }
    | .ok false =>
        { events := ev3 ++
            [.print "Nodeinfo claims this isn't a Hubzilla instance. Bailing...",
             .exitCall 1],
          account := none, crashed := none }
    | .ok true =>
      let ev4 := ev3 ++
        [.prompt ("Please enter your channel name (this is what goes before @"
                   ++ inst ++ "): ")]
      let channel := sanitizeChannel chanIn
      let ev5 := ev4 ++ [.prompt "Enter your password: ", .invokeUsercred]
      match check_usercred network inst channel pwIn with
      | .error e => { events := ev5, account := none, crashed := some e }
      | .ok false =>
          { events := ev5 ++
              [.print "Authorization attempt failed. Bailing...",
               .exitCall 1],
            account := none, crashed := none }
      | .ok true =>
          { events := ev5,
            account := some ("@" ++ channel ++ "@" ++ inst),
            crashed := none }

/-! ### Auxiliary definitions used by the verification -/

/-- The membership test nodeinfo["software"]["name"] in ("hubzilla",
"redmatrix") applied to a decoded JSON value: a Python JSON string compares
equal to "hubzilla"/"redmatrix" only when it is that string; every non-string
decoded value compares unequal to both. -/
def recognizedName : Json → Bool
  | .str s => s == "hubzilla" || s == "redmatrix"
  | _ => false

/-- The two-step lookup nodeinfo["software"]["name"], with the first raised
exception propagated. -/
def softwareNameLookup (j : Json) : Except PyErr Json :=
  match j.getKey "software" with
  | .error e => .error e
  | .ok sw => sw.getKey "name"

/-- A network on which every request raises a transport error
(requests.exceptions.ConnectionError). -/
def netFail : Network := fun _ => .error .connectionError

/-- A network on which every request returns status 500. -/
def net500 : Network := fun _ => .ok ⟨500, none⟩

/-- A network on which every request returns status 404. -/
def net404 : Network := fun _ => .ok ⟨404, none⟩

/-- A network on which every request returns status 200 with a body that
.json() cannot parse. -/
def netBadJson : Network := fun _ => .ok ⟨200, none⟩

/-- A network of a healthy Hubzilla instance at example.com: nodeinfo
returns a JSON body with software.name = "hubzilla", every other endpoint
returns a plain 200. -/
def okNet : Network := fun req =>
  if req.url = "https://example.com/nodeinfo/2.0" then
    .ok ⟨200, some (.obj [("software", .obj [("name", .str "hubzilla")])])⟩
  else .ok ⟨200, none⟩

end Cross

deriving instance DecidableEq for Except

namespace Cross

/-! ### Helper lemmas -/

/-- A character of a list prefix occurs in the list. -/
theorem mem_of_startsWithChars {p l : List Char}
    (h : startsWithChars p l = true) : ∀ a ∈ p, a ∈ l := by
  induction p generalizing l with
  | nil => intro a ha; cases ha
  | cons c cs ih =>
      cases l with
      | nil => simp [startsWithChars] at h
      | cons d ds =>
          simp only [startsWithChars, Bool.and_eq_true, beq_iff_eq] at h
          intro a ha
          rcases List.mem_cons.mp ha with rfl | ha2
          · exact h.1 ▸ List.mem_cons_self _ _
          · exact List.mem_cons_of_mem _ (ih h.2 a ha2)

/-- The sanitized domain part contains no slash. -/
theorem not_slash_mem_untilSlash (l : List Char) : '/' ∉ untilSlash l := by
  induction l with
  | nil => simp [untilSlash]
  | cons c cs ih =>
      simp only [untilSlash]
      by_cases h : c = '/'
      · simp [h]
      · simp [h, ih]
        exact fun hc => h hc.symm

/-- Stripping from the first slash is the identity on slash-free lists. -/
theorem untilSlash_eq_self {l : List Char} (h : '/' ∉ l) :
    untilSlash l = l := by
  induction l with
  | nil => rfl
  | cons c cs ih =>
      simp only [untilSlash]
      rw [if_neg, ih]
      · intro hm; exact h (List.mem_cons_of_mem _ hm)
      · intro hc; exact h (hc ▸ List.mem_cons_self _ _)

/-- Scheme stripping is the identity on slash-free lists, since both scheme
patterns contain a slash. -/
theorem dropScheme_eq_self {l : List Char} (h : '/' ∉ l) :
    dropScheme l = l := by
  unfold dropScheme
  rw [if_neg, if_neg]
  · intro hs
    exact h (mem_of_startsWithChars hs '/' (by decide))
  · intro hs
    exact h (mem_of_startsWithChars hs '/' (by decide))

/-- The account_name of a run of main is either absent or the composite
identifier built from the sanitized inputs. -/
theorem main_account_shape (instIn chanIn pwIn : String) (network : Network) :
    (main instIn chanIn pwIn network).account = none
    ∨ (main instIn chanIn pwIn network).account =
        some ("@" ++ sanitizeChannel chanIn ++ "@" ++ sanitizeDomain instIn) := by
  simp only [main]
  cases basic_check network (sanitizeDomain instIn) with
  | error e => left; rfl
  | ok b =>
      cases b with
      | false => left; rfl
      | true =>
          cases check_nodeinfo network (sanitizeDomain instIn) with
          | error e => left; rfl
          | ok b2 =>
              cases b2 with
              | false => left; rfl
              | true =>
                  cases check_usercred network (sanitizeDomain instIn)
                      (sanitizeChannel chanIn) pwIn with
                  | error e => left; rfl
                  | ok b3 => cases b3 with
                    | false => left; rfl
                    | true => right; rfl

end Cross

namespace Cross

/-! ### Claim theorems -/

/-- C1, counterexample to the claim as stated: on a domain whose nodeinfo
endpoint returns 200 with an unparseable body, check_nodeinfo raises
(propagates a JSONDecodeError) instead of returning false as the claim
demands. -/
theorem C1_counterexample :
    check_nodeinfo netBadJson "example.com" = .error .jsonDecodeError
    ∧ check_nodeinfo netBadJson "example.com" ≠ .ok false := by
  decide

/-- C1 (amended): when the GET to the nodeinfo endpoint returns a non-404
response, check_nodeinfo raises JSONDecodeError on an unparseable body,
propagates the exception of a failed software/name lookup, and otherwise
returns true exactly when the looked-up value is the JSON string "hubzilla"
or "redmatrix" (case-sensitive) and false for every other value. -/
theorem C1_nodeinfo_identity_amended (network : Network) (inst : String)
    (resp : Response) (hresp : network (nodeinfo_request inst) = .ok resp)
    (h404 : resp.status ≠ 404) :
    (resp.jsonBody = none →
      check_nodeinfo network inst = .error .jsonDecodeError)
    ∧ (∀ j e, resp.jsonBody = some j → softwareNameLookup j = .error e →
        check_nodeinfo network inst = .error e)
    ∧ (∀ j v, resp.jsonBody = some j → softwareNameLookup j = .ok v →
        check_nodeinfo network inst = .ok (recognizedName v))
    ∧ (∀ v, recognizedName v = true ↔
        (v = Json.str "hubzilla" ∨ v = Json.str "redmatrix")) := by
  refine ⟨?_, ?_, ?_, ?_⟩
  · intro hb
    unfold check_nodeinfo
    rw [hresp]
    simp [if_neg h404, hb]
  · intro j e hb hl
    unfold check_nodeinfo
    rw [hresp]
    simp only [if_neg h404, hb]
    unfold softwareNameLookup at hl
    cases hs : j.getKey "software" with
    | error e2 => rw [hs] at hl; cases hl; simp [hs]
    | ok sw =>
        rw [hs] at hl
        replace hl : sw.getKey "name" = Except.error e := hl
        simp [hs, hl]
  · intro j v hb hl
    unfold check_nodeinfo
    rw [hresp]
    simp only [if_neg h404, hb]
    unfold softwareNameLookup at hl
    cases hs : j.getKey "software" with
    | error e2 => rw [hs] at hl; cases hl
    | ok sw =>
        rw [hs] at hl
        replace hl : sw.getKey "name" = Except.ok v := hl
        cases v with
        | str s =>
            simp only [hs, hl, recognizedName]
            by_cases h1 : s = "hubzilla"
            · subst h1; simp
            · by_cases h2 : s = "redmatrix"
              · subst h2; simp
              · simp [h1, h2]
        | null => simp [hs, hl, recognizedName]
        | bool b => simp [hs, hl, recognizedName]
        | num n => simp [hs, hl, recognizedName]
        | arr xs => simp [hs, hl, recognizedName]
        | obj fs => simp [hs, hl, recognizedName]
  · intro v
    cases v <;> simp [recognizedName]

/-- C1, witness: the amended theorem applied to the concrete network whose
nodeinfo endpoint returns 200 with an unparseable body. -/
theorem C1_nodeinfo_identity_amended_witness :
    netBadJson (nodeinfo_request "example.com") = .ok ⟨200, none⟩
    ∧ check_nodeinfo netBadJson "example.com" = .error .jsonDecodeError :=
  ⟨rfl,
   (C1_nodeinfo_identity_amended netBadJson "example.com" ⟨200, none⟩ rfl
     (by decide)).1 rfl⟩

/-- C2, counterexample to the claim as stated: on a transport failure
basic_check propagates the ConnectionError raised by requests.request
instead of returning false as the claim demands. -/
theorem C2_counterexample :
    basic_check netFail "example.com" = .error .connectionError
    ∧ basic_check netFail "example.com" ≠ .ok false := by
  decide

/-- C2 (amended): basic_check returns true iff the GET to
https://domain/.well-known/host-meta yields status exactly 200 and false
for any other status; a transport failure propagates as an exception out of
basic_check rather than yielding false. -/
theorem C2_basic_check_amended (network : Network) (inst : String) :
    basic_check network inst =
      match network (host_meta_request inst) with
      | .ok r => .ok (decide (r.status = 200))
      | .error e => .error e := by
  unfold basic_check
  cases network (host_meta_request inst) with
  | error e => rfl
  | ok r => by_cases h2 : r.status = 200 <;> simp [h2]

/-- C3, counterexample to the claim as stated: on a network failure
check_usercred propagates the ConnectionError raised by requests.request
instead of returning false as the claim demands. -/
theorem C3_counterexample :
    check_usercred netFail "example.com" "alice" "secret" =
      .error .connectionError
    ∧ check_usercred netFail "example.com" "alice" "secret" ≠ .ok false := by
  decide

/-- C3 (amended): check_usercred sends the authenticated POST to
https://domain/api/z/1.0/channel/export/basic with query parameters
sections=channel and posts=0 and an empty body, and returns true iff the
response status is exactly 200 and false for any other status; a network
failure propagates as an exception rather than yielding false. -/
theorem C3_check_usercred_amended (network : Network)
    (inst name pw : String) :
    (check_usercred network inst name pw =
      match network (usercheck_request inst name pw) with
      | .ok r => .ok (decide (r.status = 200))
      | .error e => .error e)
    ∧ (usercheck_request inst name pw).method = "POST"
    ∧ (usercheck_request inst name pw).url =
        "https://" ++ inst ++ "/api/z/1.0/channel/export/basic"
    ∧ (usercheck_request inst name pw).params =
        [("sections", "channel"), ("posts", "0")]
    ∧ (usercheck_request inst name pw).body = "" := by
  refine ⟨?_, rfl, rfl, rfl, rfl⟩
  unfold check_usercred
  cases network (usercheck_request inst name pw) with
  | error e => rfl
  | ok r => by_cases h2 : r.status = 200 <;> simp [h2]

/-- C4: if the GET to the nodeinfo endpoint returns status 404,
check_nodeinfo returns true regardless of the response body. -/
theorem C4_nodeinfo_404_inconclusive (network : Network) (inst : String)
    (resp : Response) (hresp : network (nodeinfo_request inst) = .ok resp)
    (h404 : resp.status = 404) :
    check_nodeinfo network inst = .ok true := by
  unfold check_nodeinfo
  rw [hresp]
  simp [h404]

/-- C4, witness: the theorem applied to the concrete network whose every
response has status 404. -/
theorem C4_nodeinfo_404_inconclusive_witness :
    check_nodeinfo net404 "example.com" = .ok true :=
  C4_nodeinfo_404_inconclusive net404 "example.com" ⟨404, none⟩ rfl rfl

/-- C5: the authorization header value sent by check_usercred is
"Basic " followed by the base64 of the UTF-8 bytes of name:password; on the
known vector alice/secret it is "Basic YWxpY2U6c2VjcmV0". -/
theorem C5_auth_header :
    (∀ name pw, usercheck_header_value name pw =
      "Basic " ++ String.mk (b64EncodeBytes (utf8Bytes (name ++ ":" ++ pw))))
    ∧ usercheck_header_value "alice" "secret" = "Basic YWxpY2U6c2VjcmV0"
    ∧ ∀ inst name pw, (usercheck_request inst name pw).headers =
        [("authorization", usercheck_header_value name pw)] :=
  ⟨fun _ _ => rfl, by decide, fun _ _ _ => rfl⟩

/-- C6: the domain sanitization strips one leading http:// or https://
scheme and everything from the first "/" onward, and the channel
sanitization strips a single leading "@"; in particular
"https://example.com/foo/bar" sanitizes to "example.com" and "@alice" to
"alice". -/
theorem C6_sanitization :
    sanitizeDomain "https://example.com/foo/bar" = "example.com"
    ∧ sanitizeChannel "@alice" = "alice"
    ∧ (∀ s, sanitizeChannel ("@" ++ s) = s)
    ∧ (∀ s, sanitizeDomain ("https://" ++ s) = String.mk (untilSlash s.toList))
    ∧ (∀ s, sanitizeDomain ("http://" ++ s) =
        String.mk (untilSlash s.toList)) := by
  refine ⟨by decide, by decide, ?_, ?_, ?_⟩
  · intro s
    cases s with
    | mk l => simp [sanitizeChannel, String.toList, String.data_append]
  · intro s
    simp [sanitizeDomain, dropScheme, String.toList, String.data_append,
      startsWithChars]
  · intro s
    simp [sanitizeDomain, dropScheme, String.toList, String.data_append,
      startsWithChars]

/-- C7: in every run whose reachability check comes back false, main prints
the bailing diagnostic, ends on exit(1), never invokes check_nodeinfo or
check_usercred, and constructs no account identifier. -/
theorem C7_bail_on_unreachable (instIn chanIn pwIn : String)
    (network : Network)
    (h : basic_check network (sanitizeDomain instIn) = .ok false) :
    Event.print "Instance returned error upon validation. Something's amiss with the instance. Bailing..."
      ∈ (main instIn chanIn pwIn network).events
    ∧ (main instIn chanIn pwIn network).events.getLast? =
        some (Event.exitCall 1)
    ∧ Event.invokeNodeinfo ∉ (main instIn chanIn pwIn network).events
    ∧ Event.invokeUsercred ∉ (main instIn chanIn pwIn network).events
    ∧ (main instIn chanIn pwIn network).account = none := by
  simp only [main, h]
  decide

/-- C7, witness: the theorem applied to the network whose every response
has status 500, on which basic_check indeed returns false. -/
theorem C7_bail_on_unreachable_witness :
    basic_check net500 (sanitizeDomain "example.com") = .ok false
    ∧ (main "example.com" "alice" "pw" net500).events.getLast? =
        some (Event.exitCall 1)
    ∧ Event.invokeNodeinfo ∉ (main "example.com" "alice" "pw" net500).events
    ∧ Event.invokeUsercred ∉ (main "example.com" "alice" "pw" net500).events :=
  ⟨by decide,
   (C7_bail_on_unreachable "example.com" "alice" "pw" net500 (by decide)).2.1,
   (C7_bail_on_unreachable "example.com" "alice" "pw" net500 (by decide)).2.2.1,
   (C7_bail_on_unreachable "example.com" "alice" "pw" net500 (by decide)).2.2.2.1⟩

/-- C8: a run of main constructs account_name exactly when all three checks
return true, and the constructed value is "@" ++ channel ++ "@" ++ domain
over the sanitized inputs; whenever a check returns false (or raises) no
identifier is constructed. -/
theorem C8_account_after_checks (instIn chanIn pwIn : String)
    (network : Network) :
    ((main instIn chanIn pwIn network).account ≠ none ↔
      (basic_check network (sanitizeDomain instIn) = .ok true
       ∧ check_nodeinfo network (sanitizeDomain instIn) = .ok true
       ∧ check_usercred network (sanitizeDomain instIn)
           (sanitizeChannel chanIn) pwIn = .ok true))
    ∧ ((main instIn chanIn pwIn network).account = none
       ∨ (main instIn chanIn pwIn network).account =
          some ("@" ++ sanitizeChannel chanIn ++ "@" ++ sanitizeDomain instIn)) := by
  refine ⟨?_, main_account_shape instIn chanIn pwIn network⟩
  simp only [main]
  cases hb : basic_check network (sanitizeDomain instIn) with
  | error e => simp
  | ok b =>
      cases b with
      | false => simp
      | true =>
          cases hn : check_nodeinfo network (sanitizeDomain instIn) with
          | error e => simp
          | ok b2 =>
              cases b2 with
              | false => simp
              | true =>
                  cases hu : check_usercred network (sanitizeDomain instIn)
                      (sanitizeChannel chanIn) pwIn with
                  | error e => simp
                  | ok b3 => cases b3 with
                    | false => simp
                    | true => simp

/-- C8, witness: on the healthy network all three checks pass and the
theorem yields that the account was constructed, equal to
"@alice@example.com". -/
theorem C8_account_after_checks_witness :
    (main "https://example.com/" "@alice" "secret" okNet).account =
      some "@alice@example.com"
    ∧ basic_check okNet (sanitizeDomain "https://example.com/") = .ok true :=
  ⟨by decide,
   ((C8_account_after_checks "https://example.com/" "@alice" "secret"
      okNet).1.mp (by decide)).1⟩

/-- C9: the domain sanitization is idempotent: applying the scheme strip
followed by the strip from the first "/" twice equals applying it once. -/
theorem C9_sanitize_idempotent (s : String) :
    sanitizeDomain (sanitizeDomain s) = sanitizeDomain s := by
  unfold sanitizeDomain
  have h : '/' ∉ untilSlash (dropScheme s.toList) :=
    not_slash_mem_untilSlash _
  rw [show (String.mk (untilSlash (dropScheme s.toList))).toList =
        untilSlash (dropScheme s.toList) from rfl,
      dropScheme_eq_self h, untilSlash_eq_self h]

/-- C10: the constructed account identifier does not depend on the
password: two runs with the same domain and channel inputs that both
construct an identifier construct the same one, whatever their passwords
and network behaviour. -/
theorem C10_password_independent (instIn chanIn pw1 pw2 : String)
    (net1 net2 : Network)
    (h1 : (main instIn chanIn pw1 net1).account ≠ none)
    (h2 : (main instIn chanIn pw2 net2).account ≠ none) :
    (main instIn chanIn pw1 net1).account =
      (main instIn chanIn pw2 net2).account := by
  rcases main_account_shape instIn chanIn pw1 net1 with ha | ha
  · exact absurd ha h1
  · rcases main_account_shape instIn chanIn pw2 net2 with hb | hb
    · exact absurd hb h2
    · rw [ha, hb]

/-- C10, witness: the theorem applied to two successful runs on the healthy
network that differ only in the password. -/
theorem C10_password_independent_witness :
    (main "https://example.com/" "@alice" "secret" okNet).account ≠ none
    ∧ (main "https://example.com/" "@alice" "other" okNet).account ≠ none
    ∧ (main "https://example.com/" "@alice" "secret" okNet).account =
        (main "https://example.com/" "@alice" "other" okNet).account :=
  ⟨by decide, by decide,
   C10_password_independent "https://example.com/" "@alice" "secret" "other"
     okNet okNet (by decide) (by decide)⟩

end Cross
